import Mathlib

set_option maxRecDepth 2000

/-!
# Verification of the Statham-generator resilient API-gateway layer

Shallow embedding of the gateway layer of the repository:

* `Client`: the gateway client `src/services/openaiService.js`
  (`fetchWithRetry`, `handleApiError`, the `errorBackoff` circuit-breaker
  state and the `apiAvailable` flag).
* `Server`: the gateway server `api/openai.js` (the request `handler`'s
  action router and error envelope, `executeWithRetry`,
  `generateTrailerAudio`'s script preparation and truncation, and
  `generateMultipleMovies`' response normalization and count validation).

JavaScript strings are modelled as `List Char` (or Lean `String` where only
substring tests are needed), machine time as `ℚ` timestamps passed in
explicitly, and `Math.random()` jitter as an explicit function argument.
Network and upstream nondeterminism is modelled by an explicit outcome
function from attempt index to the attempt's observed result, so that one
run of the embedded retry loop corresponds to one invocation of the
JavaScript function against a given sequence of network responses.
-/

namespace StathamGateway

/-! ## String utilities

`containsSub s p` models JavaScript `s.includes(p)` on `List Char`;
`strIncludes` is the same on `String`. -/

/-- `prefixOf p s` is true when `p` is a prefix of `s` (character-wise). -/
def prefixOf : List Char → List Char → Bool
  | [], _ => true
  | _ :: _, [] => false
  | p :: ps, s :: ss => p == s && prefixOf ps ss

/-- `containsSub s p` is true when `p` occurs as a contiguous substring of
`s`; this is JavaScript `String.prototype.includes`. -/
def containsSub : List Char → List Char → Bool
  | [], p => p.isEmpty
  | s@(_ :: rest), p => prefixOf p s || containsSub rest p

/-- JavaScript `s.includes(pat)` on Lean strings. -/
def strIncludes (s pat : String) : Bool :=
  containsSub s.data pat.data

theorem prefixOf_append (p s t : List Char) (h : prefixOf p s = true) :
    prefixOf p (s ++ t) = true := by
  induction p generalizing s with
  | nil => simp [prefixOf]
  | cons a ps ih =>
    cases s with
    | nil => simp [prefixOf] at h
    | cons b ss =>
      simp only [prefixOf, Bool.and_eq_true, beq_iff_eq] at h ⊢
      exact ⟨h.1, ih ss h.2⟩

theorem containsSub_nil (s : List Char) : containsSub s [] = true := by
  cases s <;> simp [containsSub, prefixOf, List.isEmpty]

/-- A substring of `s` is still a substring of `s ++ t`. -/
theorem containsSub_append_left (s t p : List Char) (h : containsSub s p = true) :
    containsSub (s ++ t) p = true := by
  induction s with
  | nil =>
    simp only [containsSub, List.isEmpty_iff] at h
    subst h
    exact containsSub_nil t
  | cons a rest ih =>
    simp only [containsSub, Bool.or_eq_true] at h ⊢
    rcases h with h | h
    · exact Or.inl (prefixOf_append _ _ _ h)
    · exact Or.inr (ih h)

/-- `strIncludes (a ++ b) p` holds whenever `strIncludes a p` does. -/
theorem strIncludes_append_left (a b p : String) (h : strIncludes a p = true) :
    strIncludes (a ++ b) p = true := by
  simpa [strIncludes, String.data_append] using
    containsSub_append_left a.data b.data p.data h

/-! ## Gateway client (`src/services/openaiService.js`)

The client wraps every gateway call in `fetchWithRetry`, a retry loop with
`MAX_RETRIES = 2` extra attempts, `INITIAL_RETRY_DELAY = 1000` ms doubling
backoff plus `Math.random() * 500` jitter, and the module-level
circuit-breaker state `errorBackoff` / `apiAvailable`. -/

namespace Client

/-- `const MAX_RETRIES = 2` (client tier). -/
def MAX_RETRIES : Nat := 2

/-- `const INITIAL_RETRY_DELAY = 1000` (ms). -/
def INITIAL_RETRY_DELAY : ℚ := 1000

/-- The module-level `errorBackoff` object of `openaiService.js`. -/
structure ErrorBackoff where
  consecutiveErrors : Nat
  lastErrorTime : ℚ
  isInCooldown : Bool
  timeoutCount : Nat
  deriving Repr, DecidableEq

/-- Client module state: the `errorBackoff` object plus the module-level
`apiAvailable` flag. -/
structure ClientState where
  errorBackoff : ErrorBackoff
  apiAvailable : Bool
  deriving Repr, DecidableEq

/-- The client state at module load: no errors recorded, API available. -/
def initialState : ClientState :=
  { errorBackoff :=
      { consecutiveErrors := 0, lastErrorTime := 0, isInCooldown := false,
        timeoutCount := 0 },
    apiAvailable := true }

/-- What one network attempt (`fetchWithTimeout` plus `response.json()`)
observes:
* `ok`: `response.ok` was true;
* `httpErr status errorType message retryFlag`: `response.ok` false with
  the given HTTP status and parsed error body (`errorData.errorType`,
  `errorData.message`/`errorData.error` collapsed into one optional
  message whose absence yields the `HTTP error: <status>` default, and
  `errorData.retry`);
* `thrownTimeout`: `fetchWithTimeout` threw its `isTimeout` error
  (client-side `AbortController` timeout, message `Request timed out`);
* `thrownOther msg`: `fetch` threw any other error with message `msg`. -/
inductive AttemptOutcome where
  | ok
  | httpErr (status : Nat) (errorType : Option String) (message : Option String)
      (retryFlag : Bool)
  | thrownTimeout
  | thrownOther (message : String)
  deriving Repr, DecidableEq

/-- The observable result of one `fetchWithRetry` call. -/
inductive FetchResult where
  | success
  | failure (msg : String)
  deriving Repr, DecidableEq

/-- A JavaScript error value as seen by the `catch` block: its `isTimeout`
property (set only by `fetchWithTimeout`'s AbortError translation) and its
`message`. -/
structure CaughtError where
  isTimeoutFlag : Bool
  msg : String
  deriving Repr, DecidableEq

/-- Result of running one iteration of the `for` loop body of
`fetchWithRetry`: either the loop exits (returns or throws, `exit? = some r`)
or it continues to the next attempt, possibly having updated `lastError`
and possibly after the flat extra 3000 ms sleep of the response-timeout
path. -/
structure StepOut where
  exit? : Option FetchResult
  st : ClientState
  lastErr? : Option String
  extraSleep : Option ℚ
  deriving Repr, DecidableEq

/-- Error message thrown when a call is made while the breaker is open. -/
def msgCooldown : String :=
  "API temporarily unavailable due to previous errors. Please try again later."

/-- Message thrown when the server-signalled timeout counter reaches 2. -/
def msgTimeoutRepeat : String :=
  "OpenAI API is timing out repeatedly. Try again with a simpler request or after some time has passed."

/-- Message thrown when the client-side timeout counter reaches 2. -/
def msgClientTimeoutRepeat : String :=
  "Requests to the server are timing out. Please try again later."

/-- Message of the `isTimeout` error created by `fetchWithTimeout`. -/
def msgRequestTimedOut : String := "Request timed out"

/-- Prefix of the quota-exceeded error message thrown by `fetchWithRetry`. -/
def quotaMsgHead : String :=
  "OpenAI API quota exceeded. Please check your billing details: "

/-- `handleApiError()`: increment `consecutiveErrors`, stamp
`lastErrorTime`, and enter cooldown once `consecutiveErrors >= 3` or
`timeoutCount >= 2` (the scheduled 30 s auto-reset is outside one call and
not modelled). -/
def handleApiError (st : ClientState) (now : ℚ) : ClientState :=
  let eb := st.errorBackoff
  let eb := { eb with consecutiveErrors := eb.consecutiveErrors + 1, lastErrorTime := now }
  if eb.consecutiveErrors ≥ 3 ∨ eb.timeoutCount ≥ 2 then
    { errorBackoff := { eb with isInCooldown := true }, apiAvailable := false }
  else
    { st with errorBackoff := eb }

/-- Tail of the `catch` block after its client-timeout handling: the
quota-message rethrow check, then `handleApiError` on the last attempt,
then fall through to the next loop iteration. -/
def catchTail (attempt : Nat) (e : CaughtError) (st : ClientState) (now : ℚ) : StepOut :=
  if strIncludes e.msg "quota" || strIncludes e.msg "billing" ||
      strIncludes e.msg "rate limit" then
    -- quota errors are rethrown: the call fails here
    { exit? := some (.failure e.msg), st := st, lastErr? := some e.msg,
      extraSleep := none }
  else
    let st' := if attempt = MAX_RETRIES then handleApiError st now else st
    { exit? := none, st := st', lastErr? := some e.msg, extraSleep := none }

/-- The `catch (error)` block of `fetchWithRetry`. `lastError` is always
recorded; an `isTimeout` error bumps `timeoutCount`, opening the breaker
and throwing out of the function at the threshold 2, otherwise retrying
while attempts remain. -/
def catchStep (attempt : Nat) (e : CaughtError) (st : ClientState) (now : ℚ) : StepOut :=
  if e.isTimeoutFlag then
    let eb := st.errorBackoff
    let tc := eb.timeoutCount + 1
    if tc ≥ 2 then
      -- enter cooldown and throw (this throw is inside `catch`, so it
      -- propagates out of the function)
      let eb' := { eb with timeoutCount := tc, isInCooldown := true, lastErrorTime := now }
      { exit? := some (.failure msgClientTimeoutRepeat),
        st := { errorBackoff := eb', apiAvailable := false },
        lastErr? := some e.msg, extraSleep := none }
    else if attempt < MAX_RETRIES then
      -- `continue`: retry for client-side timeout
      { exit? := none,
        st := { st with errorBackoff := { eb with timeoutCount := tc } },
        lastErr? := some e.msg, extraSleep := none }
    else
      catchTail attempt e
        { st with errorBackoff := { eb with timeoutCount := tc } } now
  else
    catchTail attempt e st now

/-- Tail of the `try` block's `!response.ok` handling after the timeout
branch: quota detection (which opens the breaker and throws), the
retry-on-`errorData.retry`-or-5xx branch, and the final
`throw new Error(errorMessage)`. Both throws land in the same `try`'s
`catch`, i.e. in `catchStep`. -/
def tryTail (attempt : Nat) (isQuota : Bool) (errorMessage : String) (status : Nat)
    (retryFlag : Bool) (st : ClientState) (now : ℚ) : StepOut :=
  if isQuota then
    let eb := st.errorBackoff
    let st' : ClientState :=
      { errorBackoff := { eb with isInCooldown := true, lastErrorTime := now },
        apiAvailable := false }
    catchStep attempt ⟨false, quotaMsgHead ++ errorMessage⟩ st' now
  else if (retryFlag || decide (500 ≤ status)) && decide (attempt < MAX_RETRIES) then
    -- `lastError = new Error(errorMessage); continue;`
    { exit? := none, st := st, lastErr? := some errorMessage, extraSleep := none }
  else
    catchStep attempt ⟨false, errorMessage⟩ st now

/-- One iteration of the `for` loop body of `fetchWithRetry` (the `try`
block applied to what this attempt's network call observed, with control
transferring to `catchStep` where the JavaScript throws). -/
def tryStep (attempt : Nat) (o : AttemptOutcome) (st : ClientState) (now : ℚ) : StepOut :=
  match o with
  | .ok =>
    -- success: reset both breaker counters and return the response
    let eb := st.errorBackoff
    let eb :=
      if eb.consecutiveErrors > 0 ∨ eb.timeoutCount > 0 then
        { eb with consecutiveErrors := 0, timeoutCount := 0 }
      else eb
    { exit? := some .success, st := { st with errorBackoff := eb },
      lastErr? := none, extraSleep := none }
  | .thrownTimeout => catchStep attempt ⟨true, msgRequestTimedOut⟩ st now
  | .thrownOther m => catchStep attempt ⟨false, m⟩ st now
  | .httpErr status errorType message retryFlag =>
    let errorMessage := message.getD ("HTTP error: " ++ toString status)
    let isTimeout := status == 504 || errorType == some "timeout" ||
      strIncludes errorMessage "timeout" || strIncludes errorMessage "timed out"
    let isQuota := status == 429 || errorType == some "rate_limit" ||
      strIncludes errorMessage "quota" || strIncludes errorMessage "rate limit" ||
      strIncludes errorMessage "billing"
    if isTimeout then
      let eb := st.errorBackoff
      let tc := eb.timeoutCount + 1
      if tc ≥ 2 then
        -- multiple timeouts: enter cooldown and throw; the throw is inside
        -- `try`, so it is caught by this very attempt's `catch`
        let eb' := { eb with timeoutCount := tc, isInCooldown := true, lastErrorTime := now }
        catchStep attempt ⟨false, msgTimeoutRepeat⟩
          { errorBackoff := eb', apiAvailable := false } now
      else if attempt < MAX_RETRIES then
        -- single timeout: sleep a flat 3000 ms and `continue`
        { exit? := none,
          st := { st with errorBackoff := { eb with timeoutCount := tc } },
          lastErr? := none, extraSleep := some 3000 }
      else
        tryTail attempt isQuota errorMessage status retryFlag
          { st with errorBackoff := { eb with timeoutCount := tc } } now
    else
      tryTail attempt isQuota errorMessage status retryFlag st now

/-- The observable behaviour of one `fetchWithRetry` call: its result, the
final module state, how many network attempts were issued, and the sleeps
(in ms, in order) awaited between attempts. -/
structure RunResult where
  result : FetchResult
  state : ClientState
  networkAttempts : Nat
  sleeps : List ℚ
  deriving Repr, DecidableEq

/-- The `for (let attempt = 0; attempt <= MAX_RETRIES; attempt++)` loop of
`fetchWithRetry`, over the list of remaining attempt indices. `outcome`
gives each attempt's observed network result, `jitter` the value of
`Math.random() * 500` drawn at that attempt, `now` the `Date.now()`
timestamp. `sleepsRev` accumulates awaited delays in reverse. -/
def clientLoop (outcome : Nat → AttemptOutcome) (jitter : Nat → ℚ) (now : ℚ) :
    List Nat → ℚ → ClientState → Option String → Nat → List ℚ → RunResult
  | [], _, st, lastErr, n, sleepsRev =>
    -- loop exhausted: `throw lastError`
    ⟨.failure (lastErr.getD ""), st, n, sleepsRev.reverse⟩
  | attempt :: rest, delay, st, lastErr, n, sleepsRev =>
    -- backoff sleep and doubling happen at the top of every retry iteration
    let sleepsRev1 := if attempt > 0 then (delay + jitter attempt) :: sleepsRev else sleepsRev
    let delay1 := if attempt > 0 then delay * 2 else delay
    let s := tryStep attempt (outcome attempt) st now
    match s.exit? with
    | some r => ⟨r, s.st, n + 1, sleepsRev1.reverse⟩
    | none =>
      let sleepsRev2 :=
        match s.extraSleep with
        | some d => d :: sleepsRev1
        | none => sleepsRev1
      clientLoop outcome jitter now rest delay1 s.st
        (match s.lastErr? with
         | some m => some m
         | none => lastErr)
        (n + 1) sleepsRev2

/-- `fetchWithRetry(action, payload)` as observed against the outcome
sequence `outcome`: fail immediately with zero network attempts while the
breaker is in cooldown, otherwise run the three-iteration retry loop. -/
def fetchWithRetry (st : ClientState) (outcome : Nat → AttemptOutcome)
    (jitter : Nat → ℚ) (now : ℚ) : RunResult :=
  if st.errorBackoff.isInCooldown then
    ⟨.failure msgCooldown, st, 0, []⟩
  else
    clientLoop outcome jitter now [0, 1, 2] INITIAL_RETRY_DELAY st none 0 []

end Client

/-! ## Gateway server (`api/openai.js`)

The server is the `/api/openai` request handler: it validates the action
name, runs the matching adapter through `executeWithRetry`
(`MAX_RETRIES = 3`, 1000 ms doubling backoff, per-attempt timeout race),
and classifies any escaped error into the wire error envelope. -/

namespace Server

/-- `const MAX_RETRIES = 3` (server tier). -/
def MAX_RETRIES : Nat := 3

/-- `const INITIAL_RETRY_DELAY = 1000` (ms, server tier). -/
def INITIAL_RETRY_DELAY : ℚ := 1000

/-- An error escaping one server-side attempt: its `status` property, its
`response.status` when a `response` object is attached, and its `message`.
A lost race against the per-attempt timeout promise appears here as
`status = 504`, `message = "Operation timed out"`. -/
structure UpstreamError where
  status : Option Nat
  respStatus : Option Nat
  message : Option String
  deriving Repr, DecidableEq

/-- What one invocation of the wrapped adapter function observes. -/
inductive UpstreamOutcome where
  | ok
  | err (e : UpstreamError)
  deriving Repr, DecidableEq

/-- The timeout test of `executeWithRetry`'s catch block:
`error.status === 504 || (error.message && (message.includes('timeout') ||
message.includes('timed out')))`. -/
def serverIsTimeout (e : UpstreamError) : Bool :=
  e.status == some 504 ||
    (match e.message with
     | some m => strIncludes m "timeout" || strIncludes m "timed out"
     | none => false)

/-- `shouldRetry` of `executeWithRetry`: retry on 429 (rate limit),
timeouts, and 5xx — either on `error.status` or on
`error.response.status`. -/
def shouldRetry (e : UpstreamError) : Bool :=
  e.status == some 429 || serverIsTimeout e ||
    (match e.status with
     | some s => decide (500 ≤ s) && decide (s < 600)
     | none => false) ||
    e.respStatus == some 429 ||
    (match e.respStatus with
     | some s => decide (500 ≤ s) && decide (s < 600)
     | none => false)

/-- The observable behaviour of one `executeWithRetry` call: its result,
how many times the wrapped function was invoked, and the backoff sleeps
awaited between invocations. -/
structure ServerRunResult where
  result : Except UpstreamError Unit
  fnCalls : Nat
  sleeps : List ℚ
  deriving Repr

/-- The `for (let attempt = 1; attempt <= MAX_RETRIES; attempt++)` loop of
`executeWithRetry`, over the list of remaining attempt numbers. -/
def serverLoop (f : Nat → UpstreamOutcome) :
    List Nat → ℚ → Option UpstreamError → Nat → List ℚ → ServerRunResult
  | [], _, lastErr, n, sleepsRev =>
    -- `throw lastError` (only reachable if the loop exits without returning)
    ⟨.error (lastErr.getD ⟨none, none, none⟩), n, sleepsRev.reverse⟩
  | attempt :: rest, delay, _, n, sleepsRev =>
    match f attempt with
    | .ok => ⟨.ok (), n + 1, sleepsRev.reverse⟩
    | .err e =>
      if ¬(shouldRetry e = true) ∨ MAX_RETRIES ≤ attempt then
        -- don't retry client errors or if we've exceeded max retries
        ⟨.error e, n + 1, sleepsRev.reverse⟩
      else
        serverLoop f rest (delay * 2) (some e) (n + 1) (delay :: sleepsRev)

/-- `executeWithRetry(fn)` as observed against the per-attempt outcome
sequence `f` (attempts numbered from 1). Note the backoff sleep is the
bare `delay`: the server tier draws no jitter. -/
def executeWithRetry (f : Nat → UpstreamOutcome) : ServerRunResult :=
  serverLoop f [1, 2, 3] INITIAL_RETRY_DELAY none 0 []

/-- The error envelope the handler's catch block sends for an error `e`
escaping `executeWithRetry`. -/
structure ErrorEnvelope where
  statusCode : Nat
  error : String
  message : String
  retry : Bool
  errorType : String
  deriving Repr, DecidableEq

/-- JavaScript `a || b` over an optional HTTP status (0 and `undefined`
are falsy). -/
def orFalsyNat (a : Option Nat) (b : Nat) : Nat :=
  match a with
  | some n => if n = 0 then b else n
  | none => b

/-- The handler's catch block: derive the HTTP status from
`error.status || error.response.status || 500`, classify rate-limit and
timeout, and build the `{error, message, retry, errorType}` envelope. -/
def handlerErrorEnvelope (e : UpstreamError) : ErrorEnvelope :=
  let statusCode := orFalsyNat e.status (orFalsyNat e.respStatus 500)
  let isRateLimit := statusCode == 429 ||
    (match e.message with
     | some m => strIncludes m "rate limit"
     | none => false)
  let isTimeout := statusCode == 504 ||
    (match e.message with
     | some m => strIncludes m "timeout" || strIncludes m "timed out"
     | none => false)
  { statusCode := statusCode,
    error :=
      if isRateLimit then "Rate limit exceeded"
      else if isTimeout then "Request timed out"
      else "Error processing request",
    message := e.message.getD "Unknown error occurred",
    retry := isRateLimit || decide (500 ≤ statusCode) || isTimeout,
    errorType :=
      if isTimeout then "timeout" else if isRateLimit then "rate_limit" else "api_error" }

/-- The seven action identifiers of the handler's `switch (action)`. -/
def knownAction (a : String) : Bool :=
  a == "generateTitle" || a == "generateMoviePlot" ||
    a == "generatePosterDescription" || a == "generateMoviePoster" ||
    a == "generateMovieTrailer" || a == "generateTrailerAudio" ||
    a == "generateMultipleMovies"

/-- Outcome of routing one request: HTTP-equivalent status of the early
response and how many upstream call sequences were started. -/
structure RouteResult where
  status : Nat
  upstreamCalls : Nat
  deriving Repr, DecidableEq

/-- The request handler's routing logic, abstracting each known action's
adapter behind `upstream` (the number of upstream call sequences that
action starts; the per-action result shaping is not needed here):
reject non-POST, missing API key, and missing/unknown actions before any
upstream work. `action = none` models an absent or otherwise falsy
`action` field; the empty string is likewise falsy in
`if (!action)`. -/
def handler (upstream : String → Nat) (method : String) (hasApiKey : Bool)
    (action : Option String) : RouteResult :=
  if method ≠ "POST" then ⟨405, 0⟩
  else if ¬hasApiKey then ⟨500, 0⟩
  else
    match action with
    | none => ⟨400, 0⟩
    | some a =>
      if a = "" then ⟨400, 0⟩
      else if knownAction a then ⟨200, upstream a⟩
      else ⟨400, 0⟩

/-! ### `generateMultipleMovies`: response normalization

The adapter asks the model for a JSON array of movie-concept objects and
normalizes whatever shape comes back. -/

/-- A parsed JSON value (object fields in document order; `JSON.parse`
yields unique keys). -/
inductive Json where
  | null
  | bool (b : Bool)
  | num (q : ℚ)
  | str (s : String)
  | arr (xs : List Json)
  | obj (kvs : List (String × Json))

/-- First binding of key `k` in an association list. -/
def lookupStr : List (String × Json) → String → Option Json
  | [], _ => none
  | (k', v) :: rest, k => if k' = k then some v else lookupStr rest k

/-- JavaScript truthiness of a JSON value (`NaN` cannot come from
`JSON.parse`). -/
def truthy : Json → Bool
  | .null => false
  | .bool b => b
  | .num q => q != 0
  | .str s => s != ""
  | .arr _ => true
  | .obj _ => true

/-- Property access `j.k`: `undefined` (here `none`) unless `j` is an
object with the field. -/
def getField (j : Json) (k : String) : Option Json :=
  match j with
  | .obj kvs => lookupStr kvs k
  | _ => none

/-- Truthiness of a possibly-`undefined` value. -/
def truthyOpt : Option Json → Bool
  | none => false
  | some v => truthy v

/-- The `for (const key in jsonResponse)` fallback: collect the values
that are `typeof === 'object'` with a truthy `.title`. A `null` value
raises a `TypeError` (`null.title`), modelled as `none`; arrays have no
`title` property and are skipped. -/
def collectTitled : List (String × Json) → Option (List Json)
  | [] => some []
  | (_, v) :: rest =>
    match v with
    | .null => none
    | .arr _ =>
      (collectTitled rest).map fun ms =>
        if truthyOpt (getField v "title") then v :: ms else ms
    | .obj _ =>
      (collectTitled rest).map fun ms =>
        if truthyOpt (getField v "title") then v :: ms else ms
    | _ => collectTitled rest

/-- The response-shape normalization of `generateMultipleMovies`: a bare
array is returned as-is; an object with an array under `movies` yields
that array; an object with truthy `title` and `plot` is wrapped as a
one-element list; otherwise the titled members of the object are
collected; anything else — including the `TypeError` on a `null`
member, which the enclosing `catch` turns into `[]` — yields the empty
list. `jsonResponse.movies` on a parsed `null` also raises and is caught,
yielding `[]`. -/
def normalizeMovies (j : Json) : List Json :=
  match j with
  | .arr xs => xs
  | .null => []
  | j =>
    match getField j "movies" with
    | some (.arr ms) => ms
    | _ =>
      if truthyOpt (getField j "title") && truthyOpt (getField j "plot") then [j]
      else
        match j with
        | .obj kvs => (collectTitled kvs).getD []
        | _ => []

/-- What the upstream chat completion's content parses to:
`parsed j` when `JSON.parse(content)` succeeds with `j`; `extracted j`
when direct parsing fails but the `(\[[\s\S]*\])|(\{[\s\S]*\})` extraction
finds a substring parsing to `j`; `unparseable` when neither works (the
rethrown parse error is caught and turned into `[]`). -/
inductive UpstreamContent where
  | parsed (j : Json)
  | extracted (j : Json)
  | unparseable

/-- The list of concepts `generateMultipleMovies` returns for a given
upstream content. -/
def generateMultipleMoviesResult : UpstreamContent → List Json
  | .parsed j => normalizeMovies j
  | .extracted j => normalizeMovies j
  | .unparseable => []

/-! ### `generateMultipleMovies`: count validation

The handler substitutes `reqBody.count || 3` and the adapter rejects
`Number(count)` outside 1–5 (or `NaN`) before calling upstream. -/

/-- The JavaScript values relevant to the `count` field (strings are not
modelled; the claims quantify over absent/falsy and numeric counts). -/
inductive JsVal where
  | undef
  | null
  | bool (b : Bool)
  | num (q : ℚ)
  | nan
  deriving Repr, DecidableEq

/-- JavaScript truthiness. -/
def truthyJs : JsVal → Bool
  | .undef => false
  | .null => false
  | .bool b => b
  | .num q => q != 0
  | .nan => false

/-- `Number(v)`, with `none` for `NaN`. -/
def toNumber : JsVal → Option ℚ
  | .undef => none
  | .null => some 0
  | .bool b => some (if b then 1 else 0)
  | .num q => some q
  | .nan => none

/-- The handler's `{ count: reqBody.count || 3 }` defaulting. -/
def movieCountArg (count : JsVal) : JsVal :=
  if truthyJs count then count else .num 3

/-- The adapter's rejection message. -/
def invalidCountMsg : String :=
  "Invalid count parameter: must be a number between 1 and 5"

/-- Result of `generateMultipleMovies`' count validation: the validated
count it proceeds with, or the thrown error; and how many upstream chat
calls were issued (the validation precedes the single upstream call). -/
structure CountRunResult where
  outcome : Except String ℚ
  upstreamCalls : Nat
  deriving Repr

/-- `generateMultipleMovies({count})` up to its single upstream call:
`Number(count)` must be a number in [1, 5], otherwise throw before
contacting upstream. -/
def generateMultipleMoviesRun (count : JsVal) : CountRunResult :=
  match toNumber count with
  | none => ⟨.error invalidCountMsg, 0⟩
  | some q =>
    if q < 1 ∨ 5 < q then ⟨.error invalidCountMsg, 0⟩
    else ⟨.ok q, 1⟩

/-- The batch-concepts path through the handler: default the count, then
run the adapter's validation. -/
def batchConceptsRun (count : JsVal) : CountRunResult :=
  generateMultipleMoviesRun (movieCountArg count)

/-! ### `generateTrailerAudio`: script preparation and truncation

The adapter removes `[...]` sound-effect indicators and `(...)` direction
notes, unwraps `*...*` emphasis, replaces `...` and `.` with SSML break
tags, fixes the pronunciation of "Statham", wraps the script in
`<speak><prosody ...>` markup, and truncates scripts longer than 4000
characters, re-closing the SSML tags when the cut lost them. -/

/-- Index of the first occurrence of `c`. -/
def findClose (c : Char) : List Char → Option Nat
  | [] => none
  | x :: xs => if x = c then some 0 else (findClose c xs).map (· + 1)

/-- One pass of `script.replace(/o([^c]+)c/g, keep ? '$1' : '')` (with
`o`, `c` the delimiter characters): at each unconsumed `o`, match up to
the first following `c` provided at least one character lies between,
drop the delimiters (and the content unless `keep`), and resume after the
match; an `o` with no such `c` is left in place and scanning resumes.
`fuel` bounds the recursion (callers pass the list length). -/
def replacePairsAux (o c : Char) (keep : Bool) : Nat → List Char → List Char
  | 0, _ => []
  | _ + 1, [] => []
  | fuel + 1, x :: xs =>
    if x = o then
      match findClose c xs with
      | some (k + 1) =>
        (if keep then xs.take (k + 1) else []) ++
          replacePairsAux o c keep fuel (xs.drop (k + 2))
      | _ => x :: replacePairsAux o c keep fuel xs
    else x :: replacePairsAux o c keep fuel xs

/-- Global regex replacement of `o...c` pairs, see `replacePairsAux`. -/
def replacePairs (o c : Char) (keep : Bool) (s : List Char) : List Char :=
  replacePairsAux o c keep s.length s

/-- `script.replace(/\[([^\]]+)\]/g, '')`: remove sound-effect
indicators. -/
def stripBrackets (s : List Char) : List Char :=
  replacePairs '[' ']' false s

/-- `script.replace(/\(([^)]+)\)/g, '')`: remove direction notes. -/
def stripParens (s : List Char) : List Char :=
  replacePairs '(' ')' false s

/-- `script.replace(/\*([^*]+)\*/g, '$1')`: remove asterisks, keep the
text. -/
def stripAsterisks (s : List Char) : List Char :=
  replacePairs '*' '*' true s

/-- The pause markup substituted for `...`. -/
def breakOneSec : List Char := (" <break time=\"1s\"/> ").data

/-- The pause markup substituted for `.`. -/
def breakHalfSec : List Char := (". <break time=\"0.5s\"/> ").data

/-- `script.replace(/\.\.\./g, ' <break time="1s"/> ')`: leftmost,
non-overlapping replacement of each `...`. -/
def replaceEllipses : List Char → List Char
  | '.' :: '.' :: '.' :: rest => breakOneSec ++ replaceEllipses rest
  | x :: rest => x :: replaceEllipses rest
  | [] => []

/-- `script.replace(/\./g, '. <break time="0.5s"/> ')`: the replacement
acts on the original string, so the dots inside inserted tags are not
re-processed. -/
def replaceDots : List Char → List Char
  | [] => []
  | x :: rest => (if x = '.' then breakHalfSec else [x]) ++ replaceDots rest

/-- ASCII lowercasing, as the `/i` regex flag folds the letters of
`Statham`. -/
def lowerChar (ch : Char) : Char :=
  if 'A' ≤ ch ∧ ch ≤ 'Z' then Char.ofNat (ch.toNat + 32) else ch

/-- The SSML phoneme markup substituted for each `Statham`. -/
def phonemeStatham : List Char :=
  ("<phoneme alphabet=\"ipa\" ph=\"steɪθəm\">Statham</phoneme>").data

/-- Case-insensitive prefix test: does `s` start with the (lowercase)
pattern `p` up to ASCII case folding? -/
def prefixCI : List Char → List Char → Bool
  | [], _ => true
  | _ :: _, [] => false
  | p :: ps, t :: ts => lowerChar t = p && prefixCI ps ts

/-- The folded search pattern of `/Statham/gi`. -/
def stathamLower : List Char := ("statham").data

/-- One pass of `script.replace(/Statham/gi, ...)`: at each position, if
the next 7 characters case-fold to `statham`, emit the phoneme markup and
resume after the match. `fuel` bounds the recursion (callers pass the
list length). -/
def replaceStathamAux : Nat → List Char → List Char
  | 0, _ => []
  | _ + 1, [] => []
  | fuel + 1, x :: xs =>
    if prefixCI stathamLower (x :: xs) then
      phonemeStatham ++ replaceStathamAux fuel ((x :: xs).drop 7)
    else
      x :: replaceStathamAux fuel xs

/-- `script.replace(/Statham/gi, '<phoneme ...>Statham</phoneme>')`. -/
def replaceStatham (s : List Char) : List Char :=
  replaceStathamAux s.length s

/-- The opening text of the `<speak><prosody ...>` template literal,
whitespace exactly as in the source. -/
def ssmlOpen : List Char :=
  ("<speak>\n            <prosody rate=\"95%\" pitch=\"+0%\" volume=\"loud\">\n                ").data

/-- The closing text of the template literal. -/
def ssmlClose : List Char :=
  ("\n            </prosody>\n        </speak>").data

/-- The fully prepared SSML voice script, before the length check. -/
def prepareVoiceScript (trailerText : List Char) : List Char :=
  ssmlOpen ++
    replaceStatham (replaceDots (replaceEllipses
      (stripAsterisks (stripParens (stripBrackets trailerText))))) ++
    ssmlClose

/-- `const maxLength = 4000`. -/
def ttsMaxLength : Nat := 4000

/-- The script actually sent to the speech API: scripts longer than
`maxLength` are cut to `maxLength` characters and, unless the cut kept a
`</speak>`, the SSML tags are re-closed. -/
def ttsScript (trailerText : List Char) : List Char :=
  let script := prepareVoiceScript trailerText
  if ttsMaxLength < script.length then
    let truncated := script.take ttsMaxLength
    if containsSub truncated (("</speak>").data) then truncated
    else truncated ++ ("</prosody></speak>").data
  else script

end Server

/-! ## Lemmas about the client retry loop -/

namespace Client

theorem fetchWithRetry_cooldown (st : ClientState) (outcome : Nat → AttemptOutcome)
    (jitter : Nat → ℚ) (now : ℚ) (h : st.errorBackoff.isInCooldown = true) :
    fetchWithRetry st outcome jitter now = ⟨.failure msgCooldown, st, 0, []⟩ := by
  simp [fetchWithRetry, h]

/-- Every exit out of `catchTail` is a failure. -/
theorem catchTail_exit_failure (attempt : Nat) (e : CaughtError) (st : ClientState)
    (now : ℚ) (r : FetchResult) (h : (catchTail attempt e st now).exit? = some r) :
    ∃ m, r = .failure m := by
  simp only [catchTail] at h
  split at h
  · simp only [Option.some.injEq] at h
    exact ⟨_, h.symm⟩
  · simp at h

/-- Every exit out of `catchStep` is a failure. -/
theorem catchStep_exit_failure (attempt : Nat) (e : CaughtError) (st : ClientState)
    (now : ℚ) (r : FetchResult) (h : (catchStep attempt e st now).exit? = some r) :
    ∃ m, r = .failure m := by
  simp only [catchStep] at h
  split at h
  · split at h
    · simp only [Option.some.injEq] at h
      exact ⟨_, h.symm⟩
    · split at h
      · simp at h
      · exact catchTail_exit_failure _ _ _ _ _ h
  · exact catchTail_exit_failure _ _ _ _ _ h

/-- Every exit out of `tryTail` is a failure. -/
theorem tryTail_exit_failure (attempt : Nat) (isQuota : Bool) (errorMessage : String)
    (status : Nat) (retryFlag : Bool) (st : ClientState) (now : ℚ) (r : FetchResult)
    (h : (tryTail attempt isQuota errorMessage status retryFlag st now).exit? = some r) :
    ∃ m, r = .failure m := by
  simp only [tryTail] at h
  split at h
  · exact catchStep_exit_failure _ _ _ _ _ h
  · split at h
    · simp at h
    · exact catchStep_exit_failure _ _ _ _ _ h

/-- If an iteration exits with `success`, the outcome was `ok` and both
breaker counters of the post-step state are zero. -/
theorem tryStep_success_counters (attempt : Nat) (o : AttemptOutcome)
    (st : ClientState) (now : ℚ)
    (h : (tryStep attempt o st now).exit? = some .success) :
    (tryStep attempt o st now).st.errorBackoff.consecutiveErrors = 0 ∧
      (tryStep attempt o st now).st.errorBackoff.timeoutCount = 0 := by
  cases o with
  | ok =>
    simp only [tryStep]
    split
    · simp
    · rename_i hcond
      push_neg at hcond
      simp [Nat.le_zero.mp hcond.1, Nat.le_zero.mp hcond.2]
  | thrownTimeout =>
    obtain ⟨m, hm⟩ := catchStep_exit_failure _ _ _ _ _ h
    exact absurd hm (by simp)
  | thrownOther m =>
    obtain ⟨m', hm⟩ := catchStep_exit_failure _ _ _ _ _ h
    exact absurd hm (by simp)
  | httpErr status errorType message retryFlag =>
    exfalso
    simp only [tryStep] at h
    split at h
    · split at h
      · obtain ⟨m', hm⟩ := catchStep_exit_failure _ _ _ _ _ h
        exact absurd hm (by simp)
      · split at h
        · simp at h
        · obtain ⟨m', hm⟩ := tryTail_exit_failure _ _ _ _ _ _ _ _ h
          exact absurd hm (by simp)
    · obtain ⟨m', hm⟩ := tryTail_exit_failure _ _ _ _ _ _ _ _ h
      exact absurd hm (by simp)

/-- C7 core: a client run that returns success left both breaker counters
at zero. -/
theorem clientLoop_success_counters (outcome : Nat → AttemptOutcome)
    (jitter : Nat → ℚ) (now : ℚ) :
    ∀ (l : List Nat) (delay : ℚ) (st : ClientState) (lastErr : Option String)
      (n : Nat) (sleepsRev : List ℚ),
      (clientLoop outcome jitter now l delay st lastErr n sleepsRev).result = .success →
      (clientLoop outcome jitter now l delay st lastErr n sleepsRev).state.errorBackoff.consecutiveErrors = 0 ∧
        (clientLoop outcome jitter now l delay st lastErr n sleepsRev).state.errorBackoff.timeoutCount = 0 := by
  intro l
  induction l with
  | nil =>
    intro delay st lastErr n sleepsRev h
    simp [clientLoop] at h
  | cons attempt rest ih =>
    intro delay st lastErr n sleepsRev h
    simp only [clientLoop] at h ⊢
    cases hx : (tryStep attempt (outcome attempt) st now).exit? with
    | some r =>
      simp only [hx] at h ⊢
      subst h
      exact tryStep_success_counters _ _ _ _ hx
    | none =>
      simp only [hx] at h ⊢
      exact ih _ _ _ _ _ h

/-- A client run issues at most `n + l.length` network attempts. -/
theorem clientLoop_attempts_le (outcome : Nat → AttemptOutcome)
    (jitter : Nat → ℚ) (now : ℚ) :
    ∀ (l : List Nat) (delay : ℚ) (st : ClientState) (lastErr : Option String)
      (n : Nat) (sleepsRev : List ℚ),
      (clientLoop outcome jitter now l delay st lastErr n sleepsRev).networkAttempts ≤
        n + l.length := by
  intro l
  induction l with
  | nil =>
    intro delay st lastErr n sleepsRev
    simp [clientLoop]
  | cons attempt rest ih =>
    intro delay st lastErr n sleepsRev
    simp only [clientLoop, List.length_cons]
    cases hx : (tryStep attempt (outcome attempt) st now).exit? with
    | some r => simp only [hx]; omega
    | none =>
      simp only [hx]
      calc _ ≤ (n + 1) + rest.length := ih _ _ _ _ _
      _ = n + (rest.length + 1) := by omega

/-- The timeout-threshold invariant: a state whose `timeoutCount` has
reached 2 is in cooldown. -/
def TimeoutInv (st : ClientState) : Prop :=
  2 ≤ st.errorBackoff.timeoutCount → st.errorBackoff.isInCooldown = true

theorem handleApiError_inv (st : ClientState) (now : ℚ) (h : TimeoutInv st) :
    TimeoutInv (handleApiError st now) := by
  unfold TimeoutInv at h ⊢
  simp only [handleApiError]
  split
  · intro _
    rfl
  · intro hc
    exact h hc

theorem catchTail_inv (attempt : Nat) (e : CaughtError) (st : ClientState)
    (now : ℚ) (h : TimeoutInv st) :
    TimeoutInv (catchTail attempt e st now).st := by
  simp only [catchTail]
  split
  · exact h
  · split
    · exact handleApiError_inv st now h
    · exact h

theorem catchStep_inv (attempt : Nat) (e : CaughtError) (st : ClientState)
    (now : ℚ) (h : TimeoutInv st) :
    TimeoutInv (catchStep attempt e st now).st := by
  simp only [catchStep]
  split
  · split
    · intro _
      rfl
    · rename_i htc
      split
      · intro hc
        exact absurd hc htc
      · refine catchTail_inv _ _ _ _ ?_
        intro hc
        exact absurd hc htc
  · exact catchTail_inv _ _ _ _ h

theorem tryTail_inv (attempt : Nat) (isQuota : Bool) (errorMessage : String)
    (status : Nat) (retryFlag : Bool) (st : ClientState) (now : ℚ)
    (h : TimeoutInv st) :
    TimeoutInv (tryTail attempt isQuota errorMessage status retryFlag st now).st := by
  simp only [tryTail]
  split
  · refine catchStep_inv _ _ _ _ ?_
    intro _
    rfl
  · split
    · exact h
    · exact catchStep_inv _ _ _ _ h

theorem tryStep_inv (attempt : Nat) (o : AttemptOutcome) (st : ClientState)
    (now : ℚ) (h : TimeoutInv st) :
    TimeoutInv (tryStep attempt o st now).st := by
  cases o with
  | ok =>
    simp only [tryStep]
    split
    · intro hc
      simp at hc
    · intro hc
      exact h hc
  | thrownTimeout => exact catchStep_inv _ _ _ _ h
  | thrownOther m => exact catchStep_inv _ _ _ _ h
  | httpErr status errorType message retryFlag =>
    simp only [tryStep]
    split
    · split
      · refine catchStep_inv _ _ _ _ ?_
        intro _
        rfl
      · rename_i htc
        split
        · intro hc
          exact absurd hc htc
        · refine tryTail_inv _ _ _ _ _ _ _ ?_
          intro hc
          exact absurd hc htc
    · exact tryTail_inv _ _ _ _ _ _ _ h

/-- C3 core: the loop preserves the timeout-threshold invariant. -/
theorem clientLoop_inv (outcome : Nat → AttemptOutcome)
    (jitter : Nat → ℚ) (now : ℚ) :
    ∀ (l : List Nat) (delay : ℚ) (st : ClientState) (lastErr : Option String)
      (n : Nat) (sleepsRev : List ℚ), TimeoutInv st →
      TimeoutInv (clientLoop outcome jitter now l delay st lastErr n sleepsRev).state := by
  intro l
  induction l with
  | nil =>
    intro delay st lastErr n sleepsRev h
    simpa [clientLoop] using h
  | cons attempt rest ih =>
    intro delay st lastErr n sleepsRev h
    simp only [clientLoop]
    cases hx : (tryStep attempt (outcome attempt) st now).exit? with
    | some r =>
      simp only [hx]
      exact tryStep_inv _ _ _ _ h
    | none =>
      simp only [hx]
      exact ih _ _ _ _ _ (tryStep_inv _ _ _ _ h)

/-! ### Concrete network-outcome families

Each models a server behaviour the spec's scenarios describe: the same
response on every attempt (or a timeout followed by success). -/

/-- Every attempt gets HTTP 500, `errorType: "api_error"`, retryable. -/
def upstream500 : Nat → AttemptOutcome :=
  fun _ => .httpErr 500 (some "api_error") (some "Internal server error") true

/-- Every attempt gets HTTP 429 with the server's rate-limit envelope. -/
def upstream429 : Nat → AttemptOutcome :=
  fun _ => .httpErr 429 (some "rate_limit") (some "Rate limit reached for requests") true

/-- Every attempt gets the server's 504 timeout envelope. -/
def upstream504 : Nat → AttemptOutcome :=
  fun _ => .httpErr 504 (some "timeout")
    (some "The server timed out while waiting for OpenAI to respond. Please try again with a simpler request.") true

/-- Every attempt throws a non-timeout network error. -/
def netFailure : Nat → AttemptOutcome :=
  fun _ => .thrownOther "connection refused"

/-- First attempt gets the 504 timeout envelope, the retry succeeds. -/
def timeout504ThenOk : Nat → AttemptOutcome :=
  fun n =>
    if n = 0 then
      .httpErr 504 (some "timeout")
        (some "The server timed out while waiting for OpenAI to respond. Please try again with a simpler request.") true
    else .ok

/-- The first two attempts get the 504 timeout envelope, the third
succeeds. -/
def timeout504TwiceThenOk : Nat → AttemptOutcome :=
  fun n =>
    if n < 2 then
      .httpErr 504 (some "timeout")
        (some "The server timed out while waiting for OpenAI to respond. Please try again with a simpler request.") true
    else .ok

/-- Every attempt gets HTTP 400 with `retry: false` (an InvalidInput-class
rejection such as the unknown-action envelope). -/
def badRequest400 : Nat → AttemptOutcome :=
  fun _ => .httpErr 400 (some "api_error") (some "Invalid action: foo") false

/-- A run against persistent retryable 5xx errors: three attempts, the two
backoff sleeps, and one `handleApiError` at the end. -/
theorem fetchWithRetry_all5xx (st : ClientState) (jitter : Nat → ℚ) (now : ℚ)
    (hcd : st.errorBackoff.isInCooldown = false) :
    fetchWithRetry st upstream500 jitter now =
      ⟨.failure "Internal server error", handleApiError st now, 3,
        [1000 + jitter 1, 1000 * 2 + jitter 2]⟩ := by
  unfold fetchWithRetry
  rw [hcd]
  rfl

/-- A run against a 429 response: exactly one attempt, breaker opened
unconditionally, quota failure propagated. -/
theorem fetchWithRetry_429 (st : ClientState) (jitter : Nat → ℚ) (now : ℚ)
    (hcd : st.errorBackoff.isInCooldown = false) :
    fetchWithRetry st upstream429 jitter now =
      ⟨.failure (quotaMsgHead ++ "Rate limit reached for requests"),
        { errorBackoff :=
            { st.errorBackoff with isInCooldown := true, lastErrorTime := now },
          apiAvailable := false },
        1, []⟩ := by
  unfold fetchWithRetry
  rw [hcd]
  rfl

/-- A run against persistent 504 timeouts from a state with a clean
timeout counter: the breaker opens at the second timeout while a retry
attempt still remains (and is indeed still issued). -/
theorem fetchWithRetry_all504 (st : ClientState) (jitter : Nat → ℚ) (now : ℚ)
    (hcd : st.errorBackoff.isInCooldown = false)
    (htc : st.errorBackoff.timeoutCount = 0)
    (hce : st.errorBackoff.consecutiveErrors = 0) :
    fetchWithRetry st upstream504 jitter now =
      ⟨.failure msgTimeoutRepeat,
        { errorBackoff :=
            { consecutiveErrors := 1, lastErrorTime := now, isInCooldown := true,
              timeoutCount := 3 },
          apiAvailable := false },
        3, [3000, 1000 + jitter 1, 1000 * 2 + jitter 2]⟩ := by
  obtain ⟨⟨ce, lt, cd, tc⟩, av⟩ := st
  simp only at hcd htc hce
  subst hcd htc hce
  rfl

end Client

/-! ## Lemmas about the trailer-audio script preparation -/

namespace Server

theorem replacePairsAux_fuel (o c : Char) (keep : Bool) :
    ∀ (f₁ f₂ : Nat) (s : List Char), s.length ≤ f₁ → s.length ≤ f₂ →
      replacePairsAux o c keep f₁ s = replacePairsAux o c keep f₂ s := by
  intro f₁
  induction f₁ with
  | zero =>
    intro f₂ s h₁ _
    have hs : s = [] := List.eq_nil_of_length_eq_zero (Nat.le_zero.mp h₁)
    subst hs
    cases f₂ <;> simp [replacePairsAux]
  | succ f ih =>
    intro f₂ s h₁ h₂
    cases s with
    | nil => cases f₂ <;> simp [replacePairsAux]
    | cons x xs =>
      cases f₂ with
      | zero => simp at h₂
      | succ g =>
        simp only [List.length_cons, Nat.succ_le_succ_iff] at h₁ h₂
        simp only [replacePairsAux]
        by_cases hx : x = o
        · simp only [hx, if_pos rfl]
          cases hfc : findClose c xs with
          | none => simp [ih g xs h₁ h₂]
          | some k =>
            cases k with
            | zero => simp [ih g xs h₁ h₂]
            | succ k' =>
              have hd : (xs.drop (k' + 2)).length ≤ xs.length := by
                simp [List.length_drop]
              have hrec := ih g (xs.drop (k' + 2)) (le_trans hd h₁) (le_trans hd h₂)
              simp [hrec]
        · simp [hx, ih g xs h₁ h₂]

/-- A character that is not the opening delimiter passes through. -/
theorem replacePairs_cons_ne (o c : Char) (keep : Bool) {x : Char}
    (hx : x ≠ o) (xs : List Char) :
    replacePairs o c keep (x :: xs) = x :: replacePairs o c keep xs := by
  simp [replacePairs, replacePairsAux, hx]

/-- A run of characters free of the opening delimiter passes through. -/
theorem replacePairs_append (o c : Char) (keep : Bool) {a : List Char}
    (ha : o ∉ a) (s : List Char) :
    replacePairs o c keep (a ++ s) = a ++ replacePairs o c keep s := by
  induction a with
  | nil => simp
  | cons y a' ih =>
    have hy : y ≠ o := fun h => ha (h ▸ List.mem_cons_self y a')
    have ha' : o ∉ a' := fun h => ha (List.mem_cons_of_mem y h)
    simp only [List.cons_append, replacePairs_cons_ne o c keep hy, ih ha']

theorem replacePairs_nil (o c : Char) (keep : Bool) :
    replacePairs o c keep [] = [] := rfl

/-- A string free of the opening delimiter is unchanged. -/
theorem replacePairs_of_not_mem (o c : Char) (keep : Bool) {s : List Char}
    (h : o ∉ s) : replacePairs o c keep s = s := by
  have := replacePairs_append o c keep h []
  simpa [replacePairs_nil] using this

theorem findClose_append {c : Char} {m : List Char} (hm : c ∉ m) (t : List Char) :
    findClose c (m ++ c :: t) = some m.length := by
  induction m with
  | nil => simp [findClose]
  | cons y m' ih =>
    have hy : y ≠ c := fun h => hm (h ▸ List.mem_cons_self y m')
    have hm' : c ∉ m' := fun h => hm (List.mem_cons_of_mem y h)
    simp [findClose, hy, ih hm']

/-- The regex consumes a whole `o m c` span (the content `m` nonempty and
free of the closing delimiter) and resumes after it. -/
theorem replacePairs_span (o c : Char) (keep : Bool) {m : List Char}
    (hm : m ≠ []) (hmc : c ∉ m) (t : List Char) :
    replacePairs o c keep (o :: (m ++ c :: t)) =
      (if keep then m else []) ++ replacePairs o c keep t := by
  obtain ⟨k, hk⟩ : ∃ k, m.length = k + 1 := by
    cases m with
    | nil => exact absurd rfl hm
    | cons y m' => exact ⟨m'.length, by simp⟩
  have hfc : findClose c (m ++ c :: t) = some (k + 1) := by
    rw [findClose_append hmc, hk]
  have htake : (m ++ c :: t).take (k + 1) = m := by
    rw [← hk]
    exact List.take_left m (c :: t)
  have hdrop : (m ++ c :: t).drop (k + 2) = t := by
    have : m ++ c :: t = (m ++ [c]) ++ t := by simp
    rw [this]
    have hlen : (m ++ [c]).length = k + 2 := by simp [hk]
    rw [← hlen]
    exact List.drop_left (m ++ [c]) t
  simp only [replacePairs, List.length_cons, replacePairsAux, if_pos rfl, hfc]
  rw [htake, hdrop]
  rw [if_pos trivial]
  congr 1
  refine replacePairsAux_fuel o c keep _ _ t ?_ (le_refl _)
  simp only [List.length_append, List.length_cons]
  omega

theorem replaceEllipses_nil : replaceEllipses [] = [] := rfl

/-- A character other than `.` passes through `replaceEllipses`. -/
theorem replaceEllipses_cons_ne {x : Char} (hx : x ≠ '.') (t : List Char) :
    replaceEllipses (x :: t) = x :: replaceEllipses t := by
  rcases t with _ | ⟨a, _ | ⟨b, t'⟩⟩ <;> simp [replaceEllipses, hx]

/-- A leading `...` is replaced by the one-second break tag. -/
theorem replaceEllipses_triple (t : List Char) :
    replaceEllipses ('.' :: '.' :: '.' :: t) = breakOneSec ++ replaceEllipses t := rfl

/-- A run of dot-free characters passes through `replaceEllipses`. -/
theorem replaceEllipses_append {a : List Char} (ha : '.' ∉ a) (s : List Char) :
    replaceEllipses (a ++ s) = a ++ replaceEllipses s := by
  induction a with
  | nil => simp
  | cons y a' ih =>
    have hy : y ≠ '.' := fun h => ha (h ▸ List.mem_cons_self y a')
    have ha' : '.' ∉ a' := fun h => ha (List.mem_cons_of_mem y h)
    simp only [List.cons_append, replaceEllipses_cons_ne hy, ih ha']

/-- A dot-free string is unchanged by `replaceEllipses`. -/
theorem replaceEllipses_of_not_mem {s : List Char} (h : '.' ∉ s) :
    replaceEllipses s = s := by
  have := replaceEllipses_append h []
  simpa [replaceEllipses_nil] using this

/-- A dot-free string is unchanged by `replaceDots`. -/
theorem replaceDots_of_not_mem {s : List Char} (h : '.' ∉ s) :
    replaceDots s = s := by
  induction s with
  | nil => rfl
  | cons y s' ih =>
    have hy : y ≠ '.' := fun hh => h (hh ▸ List.mem_cons_self y s')
    have hs' : '.' ∉ s' := fun hh => h (List.mem_cons_of_mem y hh)
    simp [replaceDots, hy, ih hs']

/-- A character that does not case-fold to `s` passes through
`replaceStatham`. -/
theorem replaceStatham_cons_ne {x : Char} (hx : lowerChar x ≠ 's')
    (xs : List Char) :
    replaceStatham (x :: xs) = x :: replaceStatham xs := by
  simp [replaceStatham, replaceStathamAux, prefixCI, stathamLower, hx]

/-- A string none of whose characters case-folds to `s` is unchanged by
`replaceStatham`. -/
theorem replaceStatham_of_no_s {s : List Char}
    (h : ∀ x ∈ s, lowerChar x ≠ 's') : replaceStatham s = s := by
  induction s with
  | nil => rfl
  | cons y s' ih =>
    rw [replaceStatham_cons_ne (h y (List.mem_cons_self y s')) s']
    rw [ih fun x hx => h x (List.mem_cons_of_mem y hx)]

end Server

/-- Every character of a prefix occurrence lies in the searched string. -/
theorem mem_of_prefixOf {p s : List Char} (h : prefixOf p s = true) :
    ∀ x ∈ p, x ∈ s := by
  induction p generalizing s with
  | nil => simp
  | cons a ps ih =>
    cases s with
    | nil => simp [prefixOf] at h
    | cons b ss =>
      simp only [prefixOf, Bool.and_eq_true, beq_iff_eq] at h
      intro x hx
      rcases List.mem_cons.mp hx with hx | hx
      · exact hx ▸ h.1 ▸ List.mem_cons_self b ss
      · exact List.mem_cons_of_mem b (ih h.2 x hx)

/-- Every character of a substring occurrence lies in the searched
string. -/
theorem mem_of_containsSub {s p : List Char} (h : containsSub s p = true) :
    ∀ x ∈ p, x ∈ s := by
  induction s with
  | nil =>
    simp only [containsSub, List.isEmpty_iff] at h
    simp [h]
  | cons a rest ih =>
    simp only [containsSub, Bool.or_eq_true] at h
    intro x hx
    rcases h with h | h
    · exact mem_of_prefixOf h x hx
    · exact List.mem_cons_of_mem a (ih h x hx)

/-- A pattern containing a character missing from the searched string is
not a substring of it. -/
theorem containsSub_eq_false {s p : List Char} {x : Char} (hp : x ∈ p)
    (hs : x ∉ s) : containsSub s p = false := by
  cases h : containsSub s p with
  | false => rfl
  | true => exact absurd (mem_of_containsSub h x hp) hs

namespace Server

/-- The server loop invokes the wrapped function at most
`n + l.length` times. -/
theorem serverLoop_calls_le (f : Nat → UpstreamOutcome) :
    ∀ (l : List Nat) (delay : ℚ) (lastErr : Option UpstreamError)
      (n : Nat) (sleepsRev : List ℚ),
      (serverLoop f l delay lastErr n sleepsRev).fnCalls ≤ n + l.length := by
  intro l
  induction l with
  | nil =>
    intro delay lastErr n sleepsRev
    simp [serverLoop]
  | cons attempt rest ih =>
    intro delay lastErr n sleepsRev
    cases hf : f attempt with
    | ok =>
      simp only [serverLoop, hf, List.length_cons]
      show n + 1 ≤ n + (rest.length + 1)
      omega
    | err e =>
      simp only [serverLoop, hf, List.length_cons]
      split
      · show n + 1 ≤ n + (rest.length + 1)
        omega
      · calc (serverLoop f rest (delay * 2) (some e) (n + 1) (delay :: sleepsRev)).fnCalls
            ≤ (n + 1) + rest.length := ih _ _ _ _
        _ = n + (rest.length + 1) := by omega

/-! ### Evaluation of the trailer-audio pipeline on an over-length input

A 4000-character input free of brackets, parentheses, asterisks, dots and
`s`-letters passes untouched through every replacement stage, so the
wrapped script is 83 + 4000 + 40 = 4123 characters long and gets
truncated. -/

theorem prepareVoiceScript_longA :
    prepareVoiceScript (List.replicate 4000 'a') =
      ssmlOpen ++ (List.replicate 4000 'a' ++ ssmlClose) := by
  have hmem : ∀ x ∈ List.replicate 4000 'a', x = 'a' :=
    fun x hx => List.eq_of_mem_replicate hx
  have hnot : ∀ ch : Char, ch ≠ 'a' → ch ∉ List.replicate 4000 'a' :=
    fun ch hch hmm => hch (hmem ch hmm)
  have h1 : stripBrackets (List.replicate 4000 'a') = List.replicate 4000 'a' :=
    replacePairs_of_not_mem _ _ _ (hnot '[' (by decide))
  have h2 : stripParens (List.replicate 4000 'a') = List.replicate 4000 'a' :=
    replacePairs_of_not_mem _ _ _ (hnot '(' (by decide))
  have h3 : stripAsterisks (List.replicate 4000 'a') = List.replicate 4000 'a' :=
    replacePairs_of_not_mem _ _ _ (hnot '*' (by decide))
  have h4 : replaceEllipses (List.replicate 4000 'a') = List.replicate 4000 'a' :=
    replaceEllipses_of_not_mem (hnot '.' (by decide))
  have h5 : replaceDots (List.replicate 4000 'a') = List.replicate 4000 'a' :=
    replaceDots_of_not_mem (hnot '.' (by decide))
  have h6 : replaceStatham (List.replicate 4000 'a') = List.replicate 4000 'a' :=
    replaceStatham_of_no_s (fun x hx => by rw [hmem x hx]; decide)
  unfold prepareVoiceScript stripBrackets stripParens stripAsterisks at *
  rw [h1, h2, h3, h4, h5, h6, List.append_assoc]

theorem ssmlOpen_length : ssmlOpen.length = 83 := by decide

theorem ssmlClose_length : ssmlClose.length = 40 := by decide

/-- The truncated output on the 4000-`a` input: the first 4000 characters
of the wrapped script with the closing tags re-appended. -/
theorem ttsScript_longA :
    ttsScript (List.replicate 4000 'a') =
      ssmlOpen ++ List.replicate 3917 'a' ++ ("</prosody></speak>").data := by
  have hlen : (ssmlOpen ++ (List.replicate 4000 'a' ++ ssmlClose)).length = 4123 := by
    rw [List.length_append, List.length_append, List.length_replicate,
      ssmlOpen_length, ssmlClose_length]
  have htake : (ssmlOpen ++ (List.replicate 4000 'a' ++ ssmlClose)).take 4000 =
      ssmlOpen ++ List.replicate 3917 'a' := by
    rw [List.take_append_eq_append_take]
    rw [List.take_of_length_le (by rw [ssmlOpen_length]; omega)]
    rw [ssmlOpen_length]
    rw [List.take_append_eq_append_take, List.take_replicate, List.length_replicate]
    norm_num
  have hslash : containsSub (ssmlOpen ++ List.replicate 3917 'a')
      (("</speak>").data) = false := by
    refine containsSub_eq_false (x := '/') (by decide) ?_
    intro hmm
    rcases List.mem_append.mp hmm with hmm | hmm
    · exact absurd hmm (by decide)
    · exact absurd (List.eq_of_mem_replicate hmm) (by decide)
  simp only [ttsScript, prepareVoiceScript_longA, ttsMaxLength]
  rw [if_pos (by rw [hlen]; omega)]
  rw [htake, hslash]
  rw [if_neg (by decide)]

end Server

/-! ## Instances used by the claim theorems -/

namespace Client

/-- A state with the breaker open (3 consecutive failures recorded). -/
def cooldownState : ClientState :=
  { errorBackoff :=
      { consecutiveErrors := 3, lastErrorTime := 0, isInCooldown := true,
        timeoutCount := 0 },
    apiAvailable := false }

/-- Every attempt succeeds. -/
def allOk : Nat → AttemptOutcome := fun _ => .ok

end Client

namespace Server

/-- The upstream error of a simulated 429 response. -/
def rateLimitErr : UpstreamError :=
  ⟨some 429, none, some "Rate limit reached for requests"⟩

/-- The upstream error of a persistent 5xx failure. -/
def serverErr500 : UpstreamError :=
  ⟨some 500, none, some "Internal server error"⟩

end Server

/-! ## Claim theorems -/

/-- C1: a gateway-client call made while the circuit breaker is open
(`isInCooldown`) fails immediately with the "service temporarily
unavailable" error and issues zero network attempts — whether or not the
cooldown has elapsed, since `fetchWithRetry` checks only the flag; and
after 3 consecutive non-timeout client-side call failures the breaker is
open, so a fourth call never reaches the network. -/
theorem C1_breaker_open_fails_fast :
    (∀ (st : Client.ClientState) (outcome : Nat → Client.AttemptOutcome)
        (jitter : Nat → ℚ) (now : ℚ), st.errorBackoff.isInCooldown = true →
        Client.fetchWithRetry st outcome jitter now =
          ⟨.failure Client.msgCooldown, st, 0, []⟩) ∧
    ((Client.fetchWithRetry
        (Client.fetchWithRetry
          (Client.fetchWithRetry Client.initialState Client.netFailure (fun _ => 0) 0).state
          Client.netFailure (fun _ => 0) 0).state
        Client.netFailure (fun _ => 0) 0).state.errorBackoff.isInCooldown = true ∧
      (Client.fetchWithRetry
        (Client.fetchWithRetry
          (Client.fetchWithRetry
            (Client.fetchWithRetry Client.initialState Client.netFailure (fun _ => 0) 0).state
            Client.netFailure (fun _ => 0) 0).state
          Client.netFailure (fun _ => 0) 0).state
        Client.netFailure (fun _ => 0) 0).networkAttempts = 0 ∧
      (Client.fetchWithRetry
        (Client.fetchWithRetry
          (Client.fetchWithRetry
            (Client.fetchWithRetry Client.initialState Client.netFailure (fun _ => 0) 0).state
            Client.netFailure (fun _ => 0) 0).state
          Client.netFailure (fun _ => 0) 0).state
        Client.netFailure (fun _ => 0) 0).result = .failure Client.msgCooldown) := by
  refine ⟨fun st o j n h => Client.fetchWithRetry_cooldown st o j n h, ?_, ?_, ?_⟩ <;> decide

/-- C1 witness: the general clause applied to the concrete open-breaker
state. -/
theorem C1_breaker_open_fails_fast_witness :
    Client.cooldownState.errorBackoff.isInCooldown = true ∧
      Client.fetchWithRetry Client.cooldownState Client.netFailure (fun _ => 0) 0 =
        ⟨.failure Client.msgCooldown, Client.cooldownState, 0, []⟩ :=
  ⟨by decide,
    C1_breaker_open_fails_fast.1 Client.cooldownState Client.netFailure
      (fun _ => 0) 0 (by decide)⟩

/-- C2 counterexample: on a persistent upstream 429 the server tier's
`executeWithRetry` invokes the wrapped call 3 times — not exactly once as
the claim states (`shouldRetry` explicitly retries `status === 429`). -/
theorem C2_counterexample_server_retries_429 :
    (Server.executeWithRetry (fun _ => .err Server.rateLimitErr)).fnCalls = 3 ∧
      ¬(Server.executeWithRetry (fun _ => .err Server.rateLimitErr)).fnCalls = 1 :=
  ⟨rfl, by decide⟩

/-- C2 amended: on upstream 429 the server tier retries up to its
3-attempt cap (with backoff and no jitter) and only then propagates the
error, classified `rate_limit` with `retry: true`; the gateway client,
on receiving a 429 response, makes exactly one network attempt, opens the
breaker immediately regardless of the consecutive-failure counter, and
propagates the quota-exceeded failure. -/
theorem C2_rate_limit_handling :
    ((Server.executeWithRetry (fun _ => .err Server.rateLimitErr)).fnCalls = 3 ∧
      (Server.executeWithRetry (fun _ => .err Server.rateLimitErr)).result =
        .error Server.rateLimitErr ∧
      (Server.handlerErrorEnvelope Server.rateLimitErr).statusCode = 429 ∧
      (Server.handlerErrorEnvelope Server.rateLimitErr).errorType = "rate_limit" ∧
      (Server.handlerErrorEnvelope Server.rateLimitErr).retry = true) ∧
    (∀ (st : Client.ClientState) (jitter : Nat → ℚ) (now : ℚ),
      st.errorBackoff.isInCooldown = false →
      Client.fetchWithRetry st Client.upstream429 jitter now =
        ⟨.failure (Client.quotaMsgHead ++ "Rate limit reached for requests"),
          { errorBackoff :=
              { st.errorBackoff with isInCooldown := true, lastErrorTime := now },
            apiAvailable := false },
          1, []⟩) :=
  ⟨⟨rfl, rfl, rfl, rfl, rfl⟩, fun st j n h => Client.fetchWithRetry_429 st j n h⟩

/-- C2 witness: the client clause applied to a state whose failure counter
is 0 — the breaker still opens after the single 429 attempt. -/
theorem C2_rate_limit_handling_witness :
    Client.initialState.errorBackoff.isInCooldown = false ∧
      Client.fetchWithRetry Client.initialState Client.upstream429 (fun _ => 0) 0 =
        ⟨.failure (Client.quotaMsgHead ++ "Rate limit reached for requests"),
          { errorBackoff := { Client.initialState.errorBackoff with isInCooldown := true, lastErrorTime := 0 },
            apiAvailable := false },
          1, []⟩ :=
  ⟨rfl, C2_rate_limit_handling.2 Client.initialState (fun _ => 0) 0 rfl⟩

/-- C3: the client breaker opens exactly at its thresholds. First clause
(per step): every single iteration of the retry loop's `try`/`catch` body
(`tryStep`) preserves the property that a state whose `timeoutCount` has
reached 2 is in cooldown — both increment sites set `isInCooldown` in the
very step in which the counter reaches 2, so the breaker is open the
moment the threshold is hit, even with retry attempts remaining, not
merely at call end. Second clause: that mid-call opening is observable
with attempts remaining: against two 504 timeouts followed by a success,
the call runs all 3 attempts and returns success — the success path then
resets both counters — yet the final state is in cooldown, which only the
opening at the second timeout (before the remaining attempt ran) can
produce. Third clause: a call that exhausts its retries against
persistent retryable 5xx failures makes all 3 attempts, increments
`consecutiveFailures` by exactly one, and opens the breaker exactly when
the counter reaches 3. -/
theorem C3_breaker_thresholds :
    (∀ (attempt : Nat) (o : Client.AttemptOutcome) (st : Client.ClientState)
        (now : ℚ), Client.TimeoutInv st →
        Client.TimeoutInv (Client.tryStep attempt o st now).st) ∧
    ((Client.fetchWithRetry Client.initialState Client.timeout504TwiceThenOk
        (fun _ => 0) 0).result = .success ∧
      (Client.fetchWithRetry Client.initialState Client.timeout504TwiceThenOk
        (fun _ => 0) 0).networkAttempts = 3 ∧
      (Client.fetchWithRetry Client.initialState Client.timeout504TwiceThenOk
        (fun _ => 0) 0).state.errorBackoff.isInCooldown = true ∧
      (Client.fetchWithRetry Client.initialState Client.timeout504TwiceThenOk
        (fun _ => 0) 0).state.errorBackoff.timeoutCount = 0) ∧
    (∀ (st : Client.ClientState) (jitter : Nat → ℚ) (now : ℚ),
        st.errorBackoff.isInCooldown = false →
        st.errorBackoff.timeoutCount ≤ 1 →
        (Client.fetchWithRetry st Client.upstream500 jitter now).networkAttempts = 3 ∧
        (Client.fetchWithRetry st Client.upstream500 jitter now).result =
          .failure "Internal server error" ∧
        (Client.fetchWithRetry st Client.upstream500 jitter now).state.errorBackoff.consecutiveErrors =
          st.errorBackoff.consecutiveErrors + 1 ∧
        (Client.fetchWithRetry st Client.upstream500 jitter now).state.errorBackoff.isInCooldown =
          decide (3 ≤ st.errorBackoff.consecutiveErrors + 1)) := by
  refine ⟨fun attempt o st now h => Client.tryStep_inv attempt o st now h,
    ⟨by decide, by decide, by decide, by decide⟩, ?_⟩
  intro st j n hcd htc
  rw [Client.fetchWithRetry_all5xx st j n hcd]
  refine ⟨rfl, rfl, ?_, ?_⟩
  · simp only [Client.handleApiError]
    split <;> rfl
  · simp only [Client.handleApiError]
    split
    · rename_i hcond
      have h3 : 3 ≤ st.errorBackoff.consecutiveErrors + 1 := by
        rcases hcond with h | h
        · exact h
        · omega
      simp [h3]
    · rename_i hcond
      push_neg at hcond
      have h3 : ¬ 3 ≤ st.errorBackoff.consecutiveErrors + 1 := by
        have := hcond.1
        omega
      simp only [hcd]
      simp [h3]

/-- C3 witness: the step clause applied to the step in which the counter
reaches 2 (the resulting state is in cooldown while a retry attempt
remains), and the exhaustion clause applied to a state with 2 recorded
failures (the third opens the breaker). -/
theorem C3_breaker_thresholds_witness :
    Client.TimeoutInv
      (Client.tryStep 1 (Client.upstream504 1)
        { errorBackoff :=
            { consecutiveErrors := 0, lastErrorTime := 0, isInCooldown := false,
              timeoutCount := 1 },
          apiAvailable := true } 0).st ∧
    (Client.fetchWithRetry
        { errorBackoff :=
            { consecutiveErrors := 2, lastErrorTime := 0, isInCooldown := false,
              timeoutCount := 0 },
          apiAvailable := true }
        Client.upstream500 (fun _ => 0) 0).state.errorBackoff.isInCooldown =
      decide (3 ≤ 2 + 1) :=
  ⟨C3_breaker_thresholds.1 1 (Client.upstream504 1)
      { errorBackoff :=
          { consecutiveErrors := 0, lastErrorTime := 0, isInCooldown := false,
            timeoutCount := 1 },
        apiAvailable := true } 0
      (fun h => absurd h (by decide)),
    (C3_breaker_thresholds.2.2
        { errorBackoff :=
            { consecutiveErrors := 2, lastErrorTime := 0, isInCooldown := false,
              timeoutCount := 0 },
          apiAvailable := true }
        (fun _ => 0) 0 rfl (by decide)).2.2.2⟩

/-- C5 counterexample: a server-signalled timeout is a retryable
classification, yet the delay the client waits before the resulting
(first and only) retry is the flat 3000 ms timeout sleep plus the 1000 ms
backoff — 4000 ms in total, which no jitter value in [0, 500) can
reconcile with the claimed `initialDelay * backoffMultiplier^(1-1) +
jitter`. -/
theorem C5_counterexample_timeout_delay :
    (Client.fetchWithRetry Client.initialState Client.timeout504ThenOk
        (fun _ => 0) 0).sleeps = [3000, 1000 + 0] ∧
    (Client.fetchWithRetry Client.initialState Client.timeout504ThenOk
        (fun _ => 0) 0).result = .success ∧
    ¬ ∃ jit : ℚ, 0 ≤ jit ∧ jit < 500 ∧
        (3000 + (1000 + 0) : ℚ) = 1000 * 2 ^ (1 - 1) + jit := by
  refine ⟨rfl, rfl, ?_⟩
  rintro ⟨jit, h0, h5, heq⟩
  norm_num at heq
  linarith

/-- C5 amended: no more than the configured maximum number of calls is
made per logical request at either tier (3 on each); for retryable 5xx
classifications the client's Nth-retry delay is
`initialDelay * 2^(N-1)` plus its jitter draw, lying in
`[initialDelay * 2^(N-1), initialDelay * 2^(N-1) + 500)` when the jitter
is drawn from `[0, 500)`; the server tier's Nth-retry delay is exactly
`initialDelay * 2^(N-1)` with no jitter; and a server-signalled timeout
at the client adds a flat 3000 ms sleep on top of the backoff delay
(the counterexample). -/
theorem C5_backoff_policy :
    (∀ (st : Client.ClientState) (outcome : Nat → Client.AttemptOutcome)
        (jitter : Nat → ℚ) (now : ℚ),
        (Client.fetchWithRetry st outcome jitter now).networkAttempts ≤ 3) ∧
    (∀ f : Nat → Server.UpstreamOutcome, (Server.executeWithRetry f).fnCalls ≤ 3) ∧
    (∀ (st : Client.ClientState) (jitter : Nat → ℚ) (now : ℚ),
        st.errorBackoff.isInCooldown = false →
        (∀ k, 0 ≤ jitter k ∧ jitter k < 500) →
        (Client.fetchWithRetry st Client.upstream500 jitter now).sleeps =
          [1000 + jitter 1, 1000 * 2 + jitter 2] ∧
        1000 * 2 ^ (1 - 1) ≤ 1000 + jitter 1 ∧
        1000 + jitter 1 < 1000 * 2 ^ (1 - 1) + 500 ∧
        1000 * 2 ^ (2 - 1) ≤ 1000 * 2 + jitter 2 ∧
        1000 * 2 + jitter 2 < 1000 * 2 ^ (2 - 1) + 500) ∧
    (Server.executeWithRetry (fun _ => .err Server.serverErr500)).sleeps =
      [1000, 1000 * 2] := by
  refine ⟨?_, ?_, ?_, rfl⟩
  · intro st o j n
    unfold Client.fetchWithRetry
    split
    · simp
    · exact Client.clientLoop_attempts_le o j n [0, 1, 2] _ _ _ 0 []
  · intro f
    exact Server.serverLoop_calls_le f [1, 2, 3] _ _ 0 []
  · intro st j n hcd hj
    rw [Client.fetchWithRetry_all5xx st j n hcd]
    have h1 := hj 1
    have h2 := hj 2
    refine ⟨rfl, ?_, ?_, ?_, ?_⟩ <;> norm_num <;> linarith [h1.1, h1.2, h2.1, h2.2]

/-- C5 witness: the client clause applied to the initial state with the
constant jitter draw 100. -/
theorem C5_backoff_policy_witness :
    Client.initialState.errorBackoff.isInCooldown = false ∧
      (Client.fetchWithRetry Client.initialState Client.upstream500
          (fun _ => 100) 0).sleeps = [1000 + 100, 1000 * 2 + 100] :=
  ⟨rfl,
    (C5_backoff_policy.2.2.1 Client.initialState (fun _ => 100) 0 rfl
        (fun k => by norm_num)).1⟩


/-- A character absent from both halves is absent from their
concatenation. -/
theorem notMem_append {x : Char} {s t : List Char} (hs : x ∉ s) (ht : x ∉ t) :
    x ∉ s ++ t :=
  fun h => (List.mem_append.mp h).elim hs ht

/-- A character differing from the head and absent from the tail is absent
from the cons. -/
theorem notMem_cons {x y : Char} {t : List Char} (hxy : x ≠ y) (ht : x ∉ t) :
    x ∉ y :: t :=
  fun h => (List.mem_cons.mp h).elim hxy ht

/-- Dropping form of the span lemma (`keep = false`). -/
theorem stripPair_span (o c : Char) {m : List Char} (hm : m ≠ []) (hmc : c ∉ m)
    (t : List Char) :
    Server.replacePairs o c false (o :: (m ++ c :: t)) =
      Server.replacePairs o c false t := by
  rw [Server.replacePairs_span o c false hm hmc t]
  rfl

/-- C4: a request whose action is not one of the seven known identifiers
is answered with status 400 before any upstream call sequence starts,
whatever the adapters would do. -/
theorem C4_unknown_action_rejected :
    ∀ (upstream : String → Nat) (a : String), Server.knownAction a = false →
      Server.handler upstream "POST" true (some a) = ⟨400, 0⟩ := by
  intro u a h
  by_cases ha : a = "" <;> simp [Server.handler, h, ha]

/-- C4 witness: the unknown action `makeCoffee`. -/
theorem C4_unknown_action_rejected_witness :
    Server.knownAction "makeCoffee" = false ∧
      Server.handler (fun _ => 1) "POST" true (some "makeCoffee") = ⟨400, 0⟩ :=
  ⟨by decide, C4_unknown_action_rejected (fun _ => 1) "makeCoffee" (by decide)⟩

/-- C6: evaluation at the failing input. A 400 response carrying no retry
flag — an InvalidInput-class caller error — is nonetheless retried by the
gateway client: the `throw new Error(errorMessage)` meant to propagate it
is caught by the same `try`'s `catch`, which lacks a non-retryable check,
so the loop issues all 3 network attempts before failing (and even
increments the consecutive-failure counter). -/
theorem C6_invalid_input_is_retried :
    (Client.fetchWithRetry Client.initialState Client.badRequest400
        (fun _ => 0) 0).networkAttempts = 3 ∧
    (Client.fetchWithRetry Client.initialState Client.badRequest400
        (fun _ => 0) 0).result = .failure "Invalid action: foo" ∧
    (Client.fetchWithRetry Client.initialState Client.badRequest400
        (fun _ => 0) 0).state.errorBackoff.consecutiveErrors = 1 :=
  ⟨rfl, rfl, rfl⟩

/-- C7: whenever a `fetchWithRetry` call returns success, both breaker
counters (`consecutiveErrors` and `timeoutCount`) are 0 in the state the
caller observes after the call. -/
theorem C7_success_resets_counters :
    ∀ (st : Client.ClientState) (outcome : Nat → Client.AttemptOutcome)
      (jitter : Nat → ℚ) (now : ℚ),
      (Client.fetchWithRetry st outcome jitter now).result = .success →
      (Client.fetchWithRetry st outcome jitter now).state.errorBackoff.consecutiveErrors = 0 ∧
        (Client.fetchWithRetry st outcome jitter now).state.errorBackoff.timeoutCount = 0 := by
  intro st o j n
  unfold Client.fetchWithRetry
  split
  · intro h
    simp at h
  · exact Client.clientLoop_success_counters o j n [0, 1, 2] _ _ _ 0 []

/-- C7 witness: a dirty state healed by one successful call. -/
theorem C7_success_resets_counters_witness :
    (Client.fetchWithRetry
        { errorBackoff :=
            { consecutiveErrors := 2, lastErrorTime := 0, isInCooldown := false,
              timeoutCount := 1 },
          apiAvailable := true }
        Client.allOk (fun _ => 0) 0).result = .success ∧
      (Client.fetchWithRetry
        { errorBackoff :=
            { consecutiveErrors := 2, lastErrorTime := 0, isInCooldown := false,
              timeoutCount := 1 },
          apiAvailable := true }
        Client.allOk (fun _ => 0) 0).state.errorBackoff.consecutiveErrors = 0 :=
  ⟨by decide,
    (C7_success_resets_counters
        { errorBackoff :=
            { consecutiveErrors := 2, lastErrorTime := 0, isInCooldown := false,
              timeoutCount := 1 },
          apiAvailable := true }
        Client.allOk (fun _ => 0) 0 (by decide)).1⟩

/-- C8 counterexample: a parsed object matching none of the three shapes
— not an array (`.obj`), no `movies` key, no top-level `title` at all —
is NOT normalized to the empty list: the `for (const key in jsonResponse)`
fallback collects its object-typed members with a truthy title, here the
nonempty `[{"title": "X"}]`. -/
theorem C8_counterexample_fallback_nonempty :
    Server.lookupStr [("m1", Server.Json.obj [("title", Server.Json.str "X")])]
        "movies" = none ∧
    Server.lookupStr [("m1", Server.Json.obj [("title", Server.Json.str "X")])]
        "title" = none ∧
    Server.generateMultipleMoviesResult
        (.parsed (.obj [("m1", .obj [("title", .str "X")])])) =
      [Server.Json.obj [("title", Server.Json.str "X")]] ∧
    ¬ Server.generateMultipleMoviesResult
        (.parsed (.obj [("m1", .obj [("title", .str "X")])])) = [] :=
  ⟨rfl, rfl, rfl, fun h => List.noConfusion h⟩

/-- C8 amended: the batch-concepts adapter normalizes a bare JSON array,
an object wrapping an array under `movies`, and a bare truthy
`{title, plot}` object into one list-of-concepts result, and returns the
empty list instead of throwing when the content is unparseable; a parsed
object matching none of the three shapes, however, is not mapped to the
empty list outright — the adapter falls back to collecting the object's
object-typed members with a truthy `title` (in key order), which is
nonempty whenever such members exist, yields the empty list when there
are none, and also yields the empty list when a `null` member makes the
property probe throw a `TypeError` that the enclosing catch absorbs. -/
theorem C8_batch_normalization :
    (∀ xs : List Server.Json,
        Server.generateMultipleMoviesResult (.parsed (.arr xs)) = xs) ∧
    (∀ (kvs : List (String × Server.Json)) (xs : List Server.Json),
        Server.lookupStr kvs "movies" = some (.arr xs) →
        Server.generateMultipleMoviesResult (.parsed (.obj kvs)) = xs) ∧
    (∀ (kvs : List (String × Server.Json)) (t p : Server.Json),
        Server.lookupStr kvs "movies" = none →
        Server.lookupStr kvs "title" = some t → Server.truthy t = true →
        Server.lookupStr kvs "plot" = some p → Server.truthy p = true →
        Server.generateMultipleMoviesResult (.parsed (.obj kvs)) = [.obj kvs]) ∧
    (Server.generateMultipleMoviesResult .unparseable = []) ∧
    (∀ kvs : List (String × Server.Json),
        Server.lookupStr kvs "movies" = none →
        (Server.truthyOpt (Server.lookupStr kvs "title") &&
          Server.truthyOpt (Server.lookupStr kvs "plot")) = false →
        Server.generateMultipleMoviesResult (.parsed (.obj kvs)) =
          (Server.collectTitled kvs).getD []) ∧
    (Server.generateMultipleMoviesResult
        (.parsed (.obj [("m1", .obj [("title", .str "X")]),
          ("m2", .obj [("title", .str "Y")])])) =
      [Server.Json.obj [("title", Server.Json.str "X")],
        Server.Json.obj [("title", Server.Json.str "Y")]]) ∧
    (Server.generateMultipleMoviesResult
        (.parsed (.obj [("note", .str "hello")])) = []) ∧
    (Server.generateMultipleMoviesResult
        (.parsed (.obj [("a", .null), ("m1", .obj [("title", .str "X")])])) = []) := by
  refine ⟨fun xs => rfl, ?_, ?_, rfl, ?_, rfl, rfl, rfl⟩
  · intro kvs xs h
    simp [Server.generateMultipleMoviesResult, Server.normalizeMovies,
      Server.getField, h]
  · intro kvs t p hm ht htt hp hpt
    simp [Server.generateMultipleMoviesResult, Server.normalizeMovies,
      Server.getField, Server.truthyOpt, hm, ht, htt, hp, hpt]
  · intro kvs hm hguard
    simp [Server.generateMultipleMoviesResult, Server.normalizeMovies,
      Server.getField, hm, hguard]

/-- C8 witness: the wrapped-array and bare-object shapes on concrete
objects, and the fallback clause on an object matching none of the three
shapes. -/
theorem C8_batch_normalization_witness :
    Server.generateMultipleMoviesResult
        (.parsed (.obj [("movies", .arr [.obj [("title", .str "Steel Vengeance")]])])) =
      [Server.Json.obj [("title", .str "Steel Vengeance")]] ∧
    Server.generateMultipleMoviesResult
        (.parsed (.obj [("title", .str "Steel Vengeance"), ("plot", .str "Revenge.")])) =
      [Server.Json.obj [("title", .str "Steel Vengeance"), ("plot", .str "Revenge.")]] ∧
    Server.generateMultipleMoviesResult
        (.parsed (.obj [("m1", .obj [("title", .str "Z")])])) =
      (Server.collectTitled [("m1", Server.Json.obj [("title", Server.Json.str "Z")])]).getD [] :=
  ⟨C8_batch_normalization.2.1 _ _ rfl,
    C8_batch_normalization.2.2.1 _ _ _ rfl rfl rfl rfl rfl,
    C8_batch_normalization.2.2.2.2.1 _ rfl rfl⟩

/-- C9 counterexample: on a 4000-character input the script sent to the
synthesizer is 4018 characters long — not the announced 4000-character
maximum — and contains no dot at all, so no ellipsis marker was appended
to signal the truncation (the code re-closes the SSML tags instead). -/
theorem C9_counterexample_truncation :
    (Server.ttsScript (List.replicate 4000 'a')).length = 4018 ∧
      '.' ∉ Server.ttsScript (List.replicate 4000 'a') := by
  constructor
  · rw [Server.ttsScript_longA, List.length_append, List.length_append,
      List.length_replicate, Server.ssmlOpen_length]
    decide
  · rw [Server.ttsScript_longA]
    intro hmm
    rcases List.mem_append.mp hmm with hmm | hmm
    · rcases List.mem_append.mp hmm with hmm | hmm
      · exact absurd hmm (by decide)
      · exact absurd (List.eq_of_mem_replicate hmm) (by decide)
    · exact absurd hmm (by decide)

/-- C9 amended: the script sent to the synthesizer has the bracketed
stage direction `[BOOM]` and the parenthetical `(whispered)` removed
(first clause: deleting both markers does not change the output), each
`...` is replaced by the explicit one-second break tag (second clause),
and the length check applies to the prepared SSML script: a script within
the 4000-character cap is sent as is, while a longer one is truncated to
4000 characters with the 18-character SSML closing tags re-appended when
the cut lost them — 4000 or 4018 characters in total, deterministically —
rather than to exactly 4000 with an ellipsis marker. -/
theorem C9_trailer_audio_script :
    (∀ a b c : List Char,
        '[' ∉ a → '[' ∉ b → '[' ∉ c → '(' ∉ a → '(' ∉ b → '(' ∉ c →
        Server.ttsScript
            (a ++ ('[' :: (("BOOM").data ++ (']' ::
              (b ++ ('(' :: (("whispered").data ++ (')' :: c)))))))) =
          Server.ttsScript (a ++ b ++ c)) ∧
    (∀ a b : List Char, '.' ∉ a →
        Server.replaceEllipses (a ++ ('.' :: '.' :: '.' :: b)) =
          a ++ Server.breakOneSec ++ Server.replaceEllipses b) ∧
    (∀ s : List Char, (Server.prepareVoiceScript s).length ≤ Server.ttsMaxLength →
        Server.ttsScript s = Server.prepareVoiceScript s) ∧
    (∀ s : List Char, Server.ttsMaxLength < (Server.prepareVoiceScript s).length →
        (Server.ttsScript s).length = 4000 ∨ (Server.ttsScript s).length = 4018) := by
  refine ⟨?_, ?_, ?_, ?_⟩
  · intro a b c ha hb hc hpa hpb hpc
    have hT : ('[' : Char) ∉ b ++ ('(' :: (("whispered").data ++ (')' :: c))) :=
      notMem_append hb (notMem_cons (by decide)
        (notMem_append (by decide) (notMem_cons (by decide) hc)))
    have hL1 : Server.stripBrackets
        (a ++ ('[' :: (("BOOM").data ++ (']' ::
          (b ++ ('(' :: (("whispered").data ++ (')' :: c)))))))) =
        a ++ (b ++ ('(' :: (("whispered").data ++ (')' :: c)))) := by
      unfold Server.stripBrackets
      rw [Server.replacePairs_append '[' ']' false ha]
      rw [stripPair_span '[' ']' (by decide) (by decide)]
      rw [Server.replacePairs_of_not_mem '[' ']' false hT]
    have hL2 : Server.stripParens
        (a ++ (b ++ ('(' :: (("whispered").data ++ (')' :: c))))) =
        a ++ (b ++ c) := by
      unfold Server.stripParens
      rw [Server.replacePairs_append '(' ')' false hpa]
      rw [Server.replacePairs_append '(' ')' false hpb]
      rw [stripPair_span '(' ')' (by decide) (by decide)]
      rw [Server.replacePairs_of_not_mem '(' ')' false hpc]
    have hR : Server.stripParens (Server.stripBrackets (a ++ b ++ c)) =
        a ++ (b ++ c) := by
      unfold Server.stripBrackets Server.stripParens
      rw [Server.replacePairs_of_not_mem '[' ']' false
        (notMem_append (notMem_append ha hb) hc)]
      rw [Server.replacePairs_of_not_mem '(' ')' false
        (notMem_append (notMem_append hpa hpb) hpc)]
      rw [List.append_assoc]
    have hscripts : Server.prepareVoiceScript
        (a ++ ('[' :: (("BOOM").data ++ (']' ::
          (b ++ ('(' :: (("whispered").data ++ (')' :: c)))))))) =
        Server.prepareVoiceScript (a ++ b ++ c) := by
      unfold Server.prepareVoiceScript
      rw [hL1, hL2, hR]
    unfold Server.ttsScript
    rw [hscripts]
  · intro a b ha
    rw [Server.replaceEllipses_append ha, Server.replaceEllipses_triple,
      List.append_assoc]
  · intro s h
    simp only [Server.ttsScript]
    rw [if_neg (by omega)]
  · intro s h
    simp only [Server.ttsScript]
    rw [if_pos h]
    split
    · left
      rw [List.length_take]
      simp only [Server.ttsMaxLength] at h ⊢
      omega
    · right
      rw [List.length_append, List.length_take]
      have h18 : (("</prosody></speak>").data).length = 18 := by decide
      rw [h18]
      simp only [Server.ttsMaxLength] at h ⊢
      omega

/-- C9 witness: the marker-removal clause on concrete narration pieces and
the no-truncation clause on a short script. -/
theorem C9_trailer_audio_script_witness :
    Server.ttsScript
        (("One man ").data ++ ('[' :: (("BOOM").data ++ (']' ::
          (("stands ").data ++ ('(' :: (("whispered").data ++ (')' :: ("tall").data)))))))) =
      Server.ttsScript (("One man ").data ++ ("stands ").data ++ ("tall").data) ∧
    Server.ttsScript (("Hi").data) = Server.prepareVoiceScript (("Hi").data) :=
  ⟨C9_trailer_audio_script.1 _ _ _ (by decide) (by decide) (by decide)
      (by decide) (by decide) (by decide),
    C9_trailer_audio_script.2.2.1 _ (by decide)⟩

/-- C10: a batch-concepts request with an absent or falsy count is not
rejected — the handler substitutes the default 3, which passes the
adapter's validation and proceeds to the single upstream call — while a
provided (truthy) numeric count outside 1–5 is rejected with the
invalid-count error before any upstream call. -/
theorem C10_count_default_and_range :
    (∀ c : Server.JsVal, Server.truthyJs c = false →
        Server.batchConceptsRun c = ⟨.ok 3, 1⟩) ∧
    (∀ q : ℚ, q ≠ 0 → (q < 1 ∨ 5 < q) →
        Server.batchConceptsRun (.num q) = ⟨.error Server.invalidCountMsg, 0⟩) := by
  constructor
  · intro c h
    have h3 : Server.batchConceptsRun (.num 3) = ⟨.ok 3, 1⟩ := by
      simp only [Server.batchConceptsRun, Server.movieCountArg,
        Server.generateMultipleMoviesRun, Server.truthyJs, Server.toNumber]
      norm_num
    cases c with
    | undef => simpa [Server.batchConceptsRun, Server.movieCountArg, Server.truthyJs] using h3
    | null => simpa [Server.batchConceptsRun, Server.movieCountArg, Server.truthyJs] using h3
    | nan => simpa [Server.batchConceptsRun, Server.movieCountArg, Server.truthyJs] using h3
    | bool b =>
      simp only [Server.truthyJs] at h
      subst h
      simpa [Server.batchConceptsRun, Server.movieCountArg, Server.truthyJs] using h3
    | num q =>
      simp only [Server.truthyJs, bne_eq_false_iff_eq] at h
      subst h
      simpa [Server.batchConceptsRun, Server.movieCountArg, Server.truthyJs] using h3
  · intro q hq hrange
    simp only [Server.batchConceptsRun, Server.movieCountArg, Server.truthyJs,
      Server.generateMultipleMoviesRun, Server.toNumber]
    rw [if_pos (by simp [bne, hq])]
    simp only [Server.toNumber]
    rw [if_pos hrange]

/-- C10 witness: an absent count proceeds with 3; count 6 is rejected. -/
theorem C10_count_default_and_range_witness :
    Server.batchConceptsRun .undef = ⟨.ok 3, 1⟩ ∧
      Server.batchConceptsRun (.num 6) = ⟨.error Server.invalidCountMsg, 0⟩ :=
  ⟨C10_count_default_and_range.1 .undef rfl,
    C10_count_default_and_range.2 6 (by norm_num) (by norm_num)⟩

end StathamGateway
